import Mathlib

/-!
Verification of the GPU filter-pipeline subsystem of `sleepy_hollow`
(`src/filter.rs` and its near-duplicate `src/filter/shader.rs`).

Modelling conventions:
* `f32` values are modelled by exact rationals (`ℚ`); `u32` values by `ℕ`
  with the saturating `f32 as u32` cast made explicit.
* GPU resource handles carry no data; we track only what the claims need:
  the identity of the compiled render-pipeline state object (`pso`, a counter
  drawn from a `Device` state), the blend state baked into it, the current
  texture's size, whether a bind group exists, and the uniform-buffer content.
  Handle-only fields of the Rust struct (`bind_group_layout`, `texture_view`,
  `sampler`, `vertex_buffer`) are omitted: the code never reads them back in a
  way the claims mention.
* Queue/encoder side effects become explicit command lists (`QueueOp`,
  `RenderCmd`); a small operational semantics (`execCmds`) gives render
  commands their effect on a framebuffer.
* `shader::Storage` is a type-keyed singleton store; the code uses exactly the
  three wrapper types `CubicPipeline`, `LanczosPipeline`, `GaussianPipeline`,
  so it is embedded as three optional slots.
* The `.unwrap()` calls in the Rust code are modelled by `Option`/`Except`
  results, `none`/`.error` standing for a panic.
-/

namespace SleepyHollow

/-- Sizes as in `iced::Size`, parameterised over the scalar type. -/
structure Size (α : Type) where
  width : α
  height : α
deriving DecidableEq, Repr

/-- Rectangles as in `iced::Rectangle`, parameterised over the scalar type. -/
structure Rectangle (α : Type) where
  x : α
  y : α
  width : α
  height : α
deriving DecidableEq, Repr

/-- The filter enumeration of `src/filter.rs` (`enum Filter`). -/
inductive Filter where
  | Cubic
  | Lanczos
  | Gaussian
deriving DecidableEq, Repr

/-- The content-fit policies (`iced::ContentFit`). -/
inductive ContentFit where
  | Contain
  | Cover
  | Fill
  | ScaleDown
  | None
deriving DecidableEq, Repr

/-- Modelled from the spec: the content-fit geometry function
`fit(source_size, target_size, policy) -> fitted_size` of section 4.4.  Its
implementation lives in the host toolkit (`iced::ContentFit::fit`), outside
this repository, so it is written here from the spec's policy semantics:
`Contain` scales uniformly so the source fits entirely inside the target,
`Cover` so it fully covers the target, `Fill` stretches to the target,
`ScaleDown` behaves as `Contain` when the source is larger than the target and
as `None` otherwise, `None` keeps the source size. -/
def ContentFit.fit (policy : ContentFit) (content container : Size ℚ) : Size ℚ :=
  match policy with
  | ContentFit.Contain =>
      let scale := min (container.width / content.width) (container.height / content.height)
      ⟨content.width * scale, content.height * scale⟩
  | ContentFit.Cover =>
      let scale := max (container.width / content.width) (container.height / content.height)
      ⟨content.width * scale, content.height * scale⟩
  | ContentFit.Fill => container
  | ContentFit.ScaleDown =>
      if container.width < content.width ∨ container.height < content.height then
        let scale := min (container.width / content.width) (container.height / content.height)
        ⟨content.width * scale, content.height * scale⟩
      else content
  | ContentFit.None => content

/-- Rust's `f32::round`: round half away from zero, exactly on our rational
model of `f32`. -/
def rustRound (q : ℚ) : ℤ :=
  if q < 0 then -⌊-q + 1/2⌋ else ⌊q + 1/2⌋

/-- Rust's saturating `as u32` cast on an integer-valued float: negative
values clamp to `0`, values above `u32::MAX` clamp to `u32::MAX`. -/
def u32Saturate (z : ℤ) : ℕ :=
  (min z (2 ^ 32 - 1)).toNat

/-- The composite `x.round() as u32` used throughout the source. -/
def roundToU32 (q : ℚ) : ℕ :=
  u32Saturate (rustRound q)

/-- Blend states that appear in `wgpu::BlendState`; the pipeline is built with
`ALPHA_BLENDING` (straight alpha) at `src/filter.rs:316`. -/
inductive BlendState where
  | alphaBlending
  | replace
  | premultipliedAlphaBlending
deriving DecidableEq, Repr

/-- An RGBA colour with rational components. -/
structure Color where
  r : ℚ
  g : ℚ
  b : ℚ
  a : ℚ
deriving DecidableEq, Repr

/-- Load operation of a render pass (`wgpu::LoadOp`). -/
inductive LoadOp where
  | load
  | clear (c : Color)
deriving DecidableEq, Repr

/-- Operations submitted on the queue during `prepare`. -/
inductive QueueOp where
  | writeTexture (size : Size ℕ) (dataLen : ℕ)
  | writeBuffer (values : List ℚ)
deriving DecidableEq, Repr

/-- Commands recorded on the encoder / render pass during `render`. -/
inductive RenderCmd where
  | beginPass (op : LoadOp)
  | setPipeline (pso : ℕ) (blend : BlendState)
  | setBindGroup
  | setVertexBuffer
  | setScissor (rect : Rectangle ℕ)
  | setViewport (rect : Rectangle ℚ)
  | draw (vertices instances : ℕ)
deriving DecidableEq, Repr

/-- The GPU device, reduced to a fresh-id counter for created pipeline state
objects. -/
structure Device where
  counter : ℕ
deriving DecidableEq, Repr

/-- The `Pipeline` struct of `src/filter.rs:225`.  `pso` is the identity of
the compiled `wgpu::RenderPipeline`, `blend` the blend state baked into it;
`texture` records the size of the current source texture,
`uniform_content` the four `f32` values in the uniform buffer. -/
structure Pipeline where
  filter : Filter
  pso : ℕ
  blend : BlendState
  texture : Option (Size ℕ)
  bind_group : Option Unit
  uniform_content : List ℚ
  target_size : Size ℕ
deriving DecidableEq, Repr

/-- Model of `Pipeline::new` (`src/filter.rs:239`): compiles a fresh pipeline state
object (fresh id from the device counter) with `ALPHA_BLENDING`, a 16-byte
zero-initialised uniform buffer, and no texture or bind group yet. -/
def Pipeline.new (filter : Filter) (device : Device) (viewport : Size ℕ) :
    Pipeline × Device :=
  ( { filter := filter
    , pso := device.counter
    , blend := BlendState.alphaBlending
    , texture := none
    , bind_group := none
    , uniform_content := [0, 0, 0, 0]
    , target_size := viewport }
  , { counter := device.counter + 1 } )

/-- Model of `Pipeline::prepare` (`src/filter.rs:374`): stores the target size,
creates a texture sized exactly to the source and uploads the byte buffer,
computes the fitted size via the content-fit policy from the bounds size,
derives `scale_x = width / fitted.width`, `scale_y = height / fitted.height`,
writes the four floats into the uniform buffer, and rebuilds the bind group.
There is no input validation; the function is total. -/
def Pipeline.prepare (p : Pipeline) (image_data : List ℕ) (image_size : Size ℕ)
    (target_size : Size ℕ) (bounds : Rectangle ℚ) (content_fit : ContentFit) :
    Pipeline × List QueueOp :=
  let image_size_f32 : Size ℚ := ⟨(image_size.width : ℚ), (image_size.height : ℚ)⟩
  let bounds_size : Size ℚ := ⟨bounds.width, bounds.height⟩
  let fitted_size := content_fit.fit image_size_f32 bounds_size
  let actual_scale_x := image_size_f32.width / fitted_size.width
  let actual_scale_y := image_size_f32.height / fitted_size.height
  let uniforms : List ℚ :=
    [image_size_f32.width, image_size_f32.height, actual_scale_x, actual_scale_y]
  ( { p with
        target_size := target_size
      , texture := some image_size
      , bind_group := some ()
      , uniform_content := uniforms }
  , [ QueueOp.writeTexture image_size image_data.length
    , QueueOp.writeBuffer uniforms ] )

/-- The `fitted_bounds` rectangle computed in `Pipeline::render`
(`src/filter.rs:494`): the content-fit size of the image in the bounds,
centred within the bounds on both axes. -/
def fittedRect (image_size : Size ℚ) (bounds : Rectangle ℚ)
    (content_fit : ContentFit) : Rectangle ℚ :=
  let fitted_size := content_fit.fit image_size ⟨bounds.width, bounds.height⟩
  { x := bounds.x + (bounds.width - fitted_size.width) / 2
  , y := bounds.y + (bounds.height - fitted_size.height) / 2
  , width := fitted_size.width
  , height := fitted_size.height }

/-- The `render_bounds` conversion in `Pipeline::render` (`src/filter.rs:510`):
each component is `x.round() as u32`, a rounding followed by a saturating
cast. -/
def toRenderBounds (r : Rectangle ℚ) : Rectangle ℕ :=
  { x := roundToU32 r.x
  , y := roundToU32 r.y
  , width := roundToU32 r.width
  , height := roundToU32 r.height }

/-- Embedding of a `Rectangle ℕ` into rational coordinates (the `as f32`
casts feeding `set_viewport`). -/
def ratRect (r : Rectangle ℕ) : Rectangle ℚ :=
  ⟨(r.x : ℚ), (r.y : ℚ), (r.width : ℚ), (r.height : ℚ)⟩

/-- Model of `Pipeline::render` (`src/filter.rs:479`).  When no bind group has been
prepared the body is skipped entirely.  Otherwise the texture is unwrapped
(`.error` models the panic), the fitted and render bounds are computed, and a
single render pass is recorded: load (not clear) the target, set the pipeline,
bind group and vertex buffer, set the scissor and viewport to the render
bounds, and draw the 4-vertex triangle strip once.  `clip_bounds` is only
logged by the source and does not influence the commands. -/
def Pipeline.render (p : Pipeline) (clip_bounds : Rectangle ℕ)
    (bounds : Rectangle ℚ) (content_fit : ContentFit) :
    Except String (List RenderCmd) :=
  match p.bind_group with
  | none => Except.ok []
  | some _ =>
    match p.texture with
    | none => Except.error "called Option::unwrap on a None value"
    | some tex =>
      let image_size : Size ℚ := ⟨(tex.width : ℚ), (tex.height : ℚ)⟩
      let fitted_bounds := fittedRect image_size bounds content_fit
      let render_bounds := toRenderBounds fitted_bounds
      Except.ok
        [ RenderCmd.beginPass LoadOp.load
        , RenderCmd.setPipeline p.pso p.blend
        , RenderCmd.setBindGroup
        , RenderCmd.setVertexBuffer
        , RenderCmd.setScissor render_bounds
        , RenderCmd.setViewport (ratRect render_bounds)
        , RenderCmd.draw 4 1 ]

/-- Whether a render command is a draw call. -/
def isDraw : RenderCmd → Bool
  | RenderCmd.draw _ _ => true
  | _ => false

/-- Number of draw commands issued by a `render` call; a panic counts as
issuing none. -/
def countDraws : Except String (List RenderCmd) → ℕ
  | Except.ok cmds => (cmds.filter isDraw).length
  | Except.error _ => 0

/-- Non-empty intersection of two rectangles (positive-area overlap), as in
`iced::Rectangle::intersection`. -/
def Rectangle.intersects (a b : Rectangle ℚ) : Prop :=
  a.x < b.x + b.width ∧ b.x < a.x + a.width ∧
  a.y < b.y + b.height ∧ b.y < a.y + a.height

instance (a b : Rectangle ℚ) : Decidable (a.intersects b) := by
  unfold Rectangle.intersects; infer_instance

/-- The type-keyed `shader::Storage`, restricted to the three wrapper types
the code stores (`CubicPipeline`, `LanczosPipeline`, `GaussianPipeline` at
`src/filter.rs:135`): one optional singleton slot per variant. -/
structure Storage where
  cubic : Option Pipeline
  lanczos : Option Pipeline
  gaussian : Option Pipeline
deriving DecidableEq, Repr

/-- The `storage.has::<XPipeline>()` dispatch of `Primitive::prepare`
(`src/filter.rs:150`). -/
def Storage.hasVariant (s : Storage) : Filter → Bool
  | Filter.Cubic => s.cubic.isSome
  | Filter.Lanczos => s.lanczos.isSome
  | Filter.Gaussian => s.gaussian.isSome

/-- The `storage.get::<XPipeline>()` dispatch (`src/filter.rs:215`). -/
def Storage.getVariant (s : Storage) : Filter → Option Pipeline
  | Filter.Cubic => s.cubic
  | Filter.Lanczos => s.lanczos
  | Filter.Gaussian => s.gaussian

/-- The `storage.store(XPipeline(p))` dispatch (`src/filter.rs:168`); a
type-keyed store holds at most one value per type, so storing replaces the
slot. -/
def Storage.storeVariant (s : Storage) : Filter → Pipeline → Storage
  | Filter.Cubic, p => { s with cubic := some p }
  | Filter.Lanczos, p => { s with lanczos := some p }
  | Filter.Gaussian, p => { s with gaussian := some p }

/-- Number of pipeline entries held in the storage. -/
def Storage.countEntries (s : Storage) : ℕ :=
  (if s.cubic.isSome then 1 else 0) + (if s.lanczos.isSome then 1 else 0) +
    (if s.gaussian.isSome then 1 else 0)

/-- The `Primitive` struct of `src/filter.rs:126`: the per-frame snapshot
taken by `Shader::draw`. -/
structure Primitive where
  image_data : List ℕ
  image_size : Size ℕ
  content_fit : ContentFit
  filter : Filter
  bounds : Rectangle ℚ
deriving DecidableEq, Repr

/-- Model of `Primitive::prepare` (`src/filter.rs:140`): check whether the storage has
the active variant's pipeline, build and store one if not, compute the target
size from the rounded widget bounds, look the pipeline back up (the
`.unwrap()` is the `none` case), and run `Pipeline::prepare` on it, storing
the updated pipeline back.  Returns the new storage, the device state, and
the queue operations issued. -/
def Primitive.prepare (prim : Primitive) (device : Device) (storage : Storage)
    (bounds : Rectangle ℚ) (viewport : Size ℕ) :
    Option (Storage × Device × List QueueOp) :=
  let has_pipeline := storage.hasVariant prim.filter
  let created :=
    if has_pipeline then (storage, device)
    else
      let nd := Pipeline.new prim.filter device viewport
      (storage.storeVariant prim.filter nd.1, nd.2)
  let target_size : Size ℕ := ⟨roundToU32 bounds.width, roundToU32 bounds.height⟩
  match created.1.getVariant prim.filter with
  | none => none
  | some pipeline =>
      let pr := pipeline.prepare prim.image_data prim.image_size target_size
        prim.bounds prim.content_fit
      some (created.1.storeVariant prim.filter pr.1, created.2, pr.2)

/-- Membership test for a point inside a natural-number rectangle. -/
def inRectNat (r : Rectangle ℕ) (px py : ℕ) : Bool :=
  decide (r.x ≤ px) && decide (px < r.x + r.width) &&
  decide (r.y ≤ py) && decide (py < r.y + r.height)

/-- Straight ("non-premultiplied") alpha blending, as performed by
`wgpu::BlendState::ALPHA_BLENDING`. -/
def alphaBlend (src dst : Color) : Color :=
  { r := src.r * src.a + dst.r * (1 - src.a)
  , g := src.g * src.a + dst.g * (1 - src.a)
  , b := src.b * src.a + dst.b * (1 - src.a)
  , a := src.a + dst.a * (1 - src.a) }

/-- Blending dispatch by the bound pipeline's blend state. -/
def applyBlend : Option BlendState → Color → Color → Color
  | some BlendState.alphaBlending, src, dst => alphaBlend src dst
  | _, src, _ => src

/-- Execution state of a render pass over a framebuffer. -/
structure PassState where
  fb : ℕ → ℕ → Color
  scissor : Option (Rectangle ℕ)
  blend : Option BlendState

/-- Operational semantics of one render command.  `frag` supplies the colour
the fragment stage produces at each pixel; a draw writes (through the current
blend state) only inside the current scissor rectangle, and `beginPass` with
`load` keeps the existing framebuffer while `clear` replaces it. -/
def execCmd (frag : ℕ → ℕ → Color) (s : PassState) : RenderCmd → PassState
  | RenderCmd.beginPass LoadOp.load => s
  | RenderCmd.beginPass (LoadOp.clear c) => { s with fb := fun _ _ => c }
  | RenderCmd.setPipeline _ b => { s with blend := some b }
  | RenderCmd.setBindGroup => s
  | RenderCmd.setVertexBuffer => s
  | RenderCmd.setScissor r => { s with scissor := some r }
  | RenderCmd.setViewport _ => s
  | RenderCmd.draw _ _ =>
      match s.scissor with
      | none =>
          { s with fb := fun px py => applyBlend s.blend (frag px py) (s.fb px py) }
      | some r =>
          { s with fb := fun px py =>
              if inRectNat r px py then applyBlend s.blend (frag px py) (s.fb px py)
              else s.fb px py }

/-- Execution of a command list. -/
def execCmds (frag : ℕ → ℕ → Color) (cmds : List RenderCmd) (s : PassState) :
    PassState :=
  cmds.foldl (execCmd frag) s

/-! ### Structural lemmas about the storage and the pipeline -/

theorem hasVariant_eq_isSome (s : Storage) (f : Filter) :
    s.hasVariant f = (s.getVariant f).isSome := by
  cases f <;> rfl

theorem storeVariant_getVariant (s : Storage) (f : Filter) (p : Pipeline) :
    (s.storeVariant f p).getVariant f = some p := by
  cases f <;> rfl

theorem storeVariant_getVariant_ne (s : Storage) (f g : Filter) (p : Pipeline)
    (h : g ≠ f) : (s.storeVariant f p).getVariant g = s.getVariant g := by
  cases f <;> cases g <;> simp_all [Storage.storeVariant, Storage.getVariant]

theorem countEntries_le_three (s : Storage) : s.countEntries ≤ 3 := by
  unfold Storage.countEntries
  have h1 : (if s.cubic.isSome then 1 else 0) ≤ 1 := by split <;> simp
  have h2 : (if s.lanczos.isSome then 1 else 0) ≤ 1 := by split <;> simp
  have h3 : (if s.gaussian.isSome then 1 else 0) ≤ 1 := by split <;> simp
  omega

theorem Pipeline.prepare_pso (p : Pipeline) (d : List ℕ) (s t : Size ℕ)
    (b : Rectangle ℚ) (c : ContentFit) :
    (p.prepare d s t b c).1.pso = p.pso := rfl

theorem Pipeline.prepare_texture (p : Pipeline) (d : List ℕ) (s t : Size ℕ)
    (b : Rectangle ℚ) (c : ContentFit) :
    (p.prepare d s t b c).1.texture = some s := rfl

theorem Pipeline.prepare_bind_group (p : Pipeline) (d : List ℕ) (s t : Size ℕ)
    (b : Rectangle ℚ) (c : ContentFit) :
    (p.prepare d s t b c).1.bind_group = some () := rfl

/-- Closed form of `Primitive::prepare` when the storage already holds the
variant's pipeline: no new pipeline is built and the stored one is updated. -/
theorem prepare_of_get (prim : Primitive) (device : Device) (storage : Storage)
    (bounds : Rectangle ℚ) (vp : Size ℕ) (p : Pipeline)
    (hp : storage.getVariant prim.filter = some p) :
    Primitive.prepare prim device storage bounds vp =
      some (storage.storeVariant prim.filter
              (p.prepare prim.image_data prim.image_size
                ⟨roundToU32 bounds.width, roundToU32 bounds.height⟩
                prim.bounds prim.content_fit).1,
            device,
            (p.prepare prim.image_data prim.image_size
              ⟨roundToU32 bounds.width, roundToU32 bounds.height⟩
              prim.bounds prim.content_fit).2) := by
  have hhas : storage.hasVariant prim.filter = true := by
    rw [hasVariant_eq_isSome, hp]; rfl
  unfold Primitive.prepare
  simp [hhas, hp]

/-- Closed form of `Primitive::prepare` when the storage lacks the variant's
pipeline: a fresh one is built, stored, and then updated. -/
theorem prepare_of_not_has (prim : Primitive) (device : Device) (storage : Storage)
    (bounds : Rectangle ℚ) (vp : Size ℕ)
    (hp : storage.hasVariant prim.filter = false) :
    Primitive.prepare prim device storage bounds vp =
      some ((storage.storeVariant prim.filter
                (Pipeline.new prim.filter device vp).1).storeVariant prim.filter
              ((Pipeline.new prim.filter device vp).1.prepare prim.image_data
                prim.image_size ⟨roundToU32 bounds.width, roundToU32 bounds.height⟩
                prim.bounds prim.content_fit).1,
            (Pipeline.new prim.filter device vp).2,
            ((Pipeline.new prim.filter device vp).1.prepare prim.image_data
              prim.image_size ⟨roundToU32 bounds.width, roundToU32 bounds.height⟩
              prim.bounds prim.content_fit).2) := by
  unfold Primitive.prepare
  simp [hp, storeVariant_getVariant]

/-- After any successful `Primitive::prepare`, the storage holds the active
variant's pipeline. -/
theorem prepare_establishes_variant (prim : Primitive) (device : Device)
    (storage : Storage) (bounds : Rectangle ℚ) (vp : Size ℕ)
    (s' : Storage) (d' : Device) (ops : List QueueOp)
    (h : Primitive.prepare prim device storage bounds vp = some (s', d', ops)) :
    s'.hasVariant prim.filter = true := by
  cases hhas : storage.hasVariant prim.filter
  · rw [prepare_of_not_has prim device storage bounds vp hhas] at h
    simp only [Option.some.injEq, Prod.mk.injEq] at h
    obtain ⟨hs, _, _⟩ := h
    rw [← hs, hasVariant_eq_isSome, storeVariant_getVariant]; rfl
  · have hsome : (storage.getVariant prim.filter).isSome = true := by
      rw [← hasVariant_eq_isSome, hhas]
    obtain ⟨p, hp⟩ := Option.isSome_iff_exists.mp hsome
    rw [prepare_of_get prim device storage bounds vp p hp] at h
    simp only [Option.some.injEq, Prod.mk.injEq] at h
    obtain ⟨hs, _, _⟩ := h
    rw [← hs, hasVariant_eq_isSome, storeVariant_getVariant]; rfl

/-- When the storage already has the variant, `Primitive::prepare` leaves the
device untouched (no pipeline state object compiled) and preserves the
identity of the stored pipeline state object. -/
theorem prepare_preserves_pso_when_has (prim : Primitive) (device : Device)
    (storage : Storage) (bounds : Rectangle ℚ) (vp : Size ℕ)
    (s' : Storage) (d' : Device) (ops : List QueueOp)
    (hhas : storage.hasVariant prim.filter = true)
    (h : Primitive.prepare prim device storage bounds vp = some (s', d', ops)) :
    d' = device ∧
    (s'.getVariant prim.filter).map Pipeline.pso =
      (storage.getVariant prim.filter).map Pipeline.pso := by
  have hsome : (storage.getVariant prim.filter).isSome = true := by
    rw [← hasVariant_eq_isSome, hhas]
  obtain ⟨p, hp⟩ := Option.isSome_iff_exists.mp hsome
  rw [prepare_of_get prim device storage bounds vp p hp] at h
  simp only [Option.some.injEq, Prod.mk.injEq] at h
  obtain ⟨hs, hd, _⟩ := h
  refine ⟨hd.symm, ?_⟩
  rw [← hs, storeVariant_getVariant, hp]
  simp [Pipeline.prepare_pso]

/-- Closed form of `Pipeline::render` once a texture and bind group are in
place. -/
theorem render_of_prepared (p : Pipeline) (clip : Rectangle ℕ)
    (bounds : Rectangle ℚ) (cf : ContentFit) (ts : Size ℕ) (bg : Unit)
    (htex : p.texture = some ts) (hbg : p.bind_group = some bg) :
    p.render clip bounds cf =
      Except.ok
        [ RenderCmd.beginPass LoadOp.load
        , RenderCmd.setPipeline p.pso p.blend
        , RenderCmd.setBindGroup
        , RenderCmd.setVertexBuffer
        , RenderCmd.setScissor
            (toRenderBounds (fittedRect ⟨(ts.width : ℚ), (ts.height : ℚ)⟩ bounds cf))
        , RenderCmd.setViewport
            (ratRect (toRenderBounds
              (fittedRect ⟨(ts.width : ℚ), (ts.height : ℚ)⟩ bounds cf)))
        , RenderCmd.draw 4 1 ] := by
  unfold Pipeline.render
  rw [hbg, htex]

/-- Saturation of the rounded cast: a negative coordinate becomes `0`. -/
theorem roundToU32_of_neg (q : ℚ) (h : q < 0) : roundToU32 q = 0 := by
  unfold roundToU32 rustRound u32Saturate
  rw [if_pos h]
  have h1 : (0 : ℤ) ≤ ⌊-q + 1/2⌋ := by
    rw [Int.le_floor]
    push_cast
    linarith
  have h2 : min (-⌊-q + 1/2⌋) ((2 : ℤ) ^ 32 - 1) ≤ 0 :=
    le_trans (min_le_left _ _) (by linarith)
  exact Int.toNat_of_nonpos h2

/-! ### Claims -/

/-- C1, counterexample: a prepared pipeline rendered with a clip rectangle
that does not intersect the fitted rectangle still issues one draw command —
`Pipeline::render` never intersects with the clip, so the claim that it
issues zero draw commands in that case is false on the code. -/
theorem render_draws_despite_disjoint_clip :
    ¬ Rectangle.intersects (fittedRect ⟨4, 4⟩ ⟨0, 0, 4, 4⟩ ContentFit.None)
        (ratRect ⟨100, 100, 10, 10⟩) ∧
    countDraws
      (((Pipeline.new Filter.Cubic ⟨0⟩ ⟨100, 100⟩).1.prepare (List.replicate 64 0)
          ⟨4, 4⟩ ⟨4, 4⟩ ⟨0, 0, 4, 4⟩ ContentFit.None).1.render
        ⟨100, 100, 10, 10⟩ ⟨0, 0, 4, 4⟩ ContentFit.None) = 1 := by
  constructor
  · simp only [Rectangle.intersects, fittedRect, ratRect, ContentFit.fit]
    norm_num
  · rw [render_of_prepared _ _ _ _ ⟨4, 4⟩ () rfl rfl]
    rfl

/-- C1, amended: `Pipeline::render` ignores the supplied clip rectangle
entirely (it is only logged); whenever a bind group and texture are present it
issues exactly one draw command, and its output does not depend on the clip
rectangle at all, intersecting or not. -/
theorem render_ignores_clip_and_draws_once (p : Pipeline)
    (clip clip' : Rectangle ℕ) (bounds : Rectangle ℚ) (cf : ContentFit)
    (ts : Size ℕ) (bg : Unit)
    (htex : p.texture = some ts) (hbg : p.bind_group = some bg) :
    countDraws (p.render clip bounds cf) = 1 ∧
    p.render clip bounds cf = p.render clip' bounds cf := by
  rw [render_of_prepared p clip bounds cf ts bg htex hbg,
    render_of_prepared p clip' bounds cf ts bg htex hbg]
  exact ⟨rfl, rfl⟩

/-- C1, witness for the amended claim at a concrete prepared pipeline and two
different clip rectangles. -/
theorem render_ignores_clip_and_draws_once_witness :
    countDraws
      (((Pipeline.new Filter.Cubic ⟨0⟩ ⟨100, 100⟩).1.prepare (List.replicate 64 0)
          ⟨4, 4⟩ ⟨4, 4⟩ ⟨0, 0, 4, 4⟩ ContentFit.None).1.render
        ⟨100, 100, 10, 10⟩ ⟨0, 0, 4, 4⟩ ContentFit.None) = 1 ∧
    ((Pipeline.new Filter.Cubic ⟨0⟩ ⟨100, 100⟩).1.prepare (List.replicate 64 0)
        ⟨4, 4⟩ ⟨4, 4⟩ ⟨0, 0, 4, 4⟩ ContentFit.None).1.render
      ⟨100, 100, 10, 10⟩ ⟨0, 0, 4, 4⟩ ContentFit.None =
    ((Pipeline.new Filter.Cubic ⟨0⟩ ⟨100, 100⟩).1.prepare (List.replicate 64 0)
        ⟨4, 4⟩ ⟨4, 4⟩ ⟨0, 0, 4, 4⟩ ContentFit.None).1.render
      ⟨0, 0, 2, 2⟩ ⟨0, 0, 4, 4⟩ ContentFit.None :=
  render_ignores_clip_and_draws_once _ ⟨100, 100, 10, 10⟩ ⟨0, 0, 2, 2⟩
    ⟨0, 0, 4, 4⟩ ContentFit.None ⟨4, 4⟩ () rfl rfl

/-- C2: the queue operations of every `Pipeline::prepare` call write the
uniform buffer with the scale factors computed from the fitted size,
`scale_x = source_width / fitted_width` and
`scale_y = source_height / fitted_height`; in particular a 800×600 source in
a 400×300 target under `Contain` yields `scale_x = scale_y = 2`. -/
theorem prepare_scale_factors_from_fitted (p : Pipeline) (image_data : List ℕ)
    (image_size target_size : Size ℕ) (bounds : Rectangle ℚ)
    (content_fit : ContentFit) :
    (p.prepare image_data image_size target_size bounds content_fit).2 =
      [ QueueOp.writeTexture image_size image_data.length
      , QueueOp.writeBuffer
          [ (image_size.width : ℚ), (image_size.height : ℚ)
          , (image_size.width : ℚ) /
              (content_fit.fit ⟨(image_size.width : ℚ), (image_size.height : ℚ)⟩
                ⟨bounds.width, bounds.height⟩).width
          , (image_size.height : ℚ) /
              (content_fit.fit ⟨(image_size.width : ℚ), (image_size.height : ℚ)⟩
                ⟨bounds.width, bounds.height⟩).height ] ] ∧
    (p.prepare image_data ⟨800, 600⟩ target_size ⟨bounds.x, bounds.y, 400, 300⟩
        ContentFit.Contain).1.uniform_content = [800, 600, 2, 2] := by
  refine ⟨rfl, ?_⟩
  show [(800 : ℚ), 600, 800 / (ContentFit.Contain.fit ⟨800, 600⟩ ⟨400, 300⟩).width,
    600 / (ContentFit.Contain.fit ⟨800, 600⟩ ⟨400, 300⟩).height] = [800, 600, 2, 2]
  norm_num [ContentFit.fit]

/-- C3, counterexample: `Pipeline::prepare` does not reject malformed input.
With a zero source width and a 5-byte buffer (≠ width×height×4 = 0) it still
issues the texture allocation/upload and the uniform write; there is no error
path at the prepare boundary. -/
theorem prepare_attempts_upload_on_malformed :
    ((Pipeline.new Filter.Cubic ⟨0⟩ ⟨1, 1⟩).1.prepare [0, 0, 0, 0, 0] ⟨0, 2⟩
        ⟨1, 1⟩ ⟨0, 0, 1, 1⟩ ContentFit.Fill).2 =
      [QueueOp.writeTexture ⟨0, 2⟩ 5, QueueOp.writeBuffer [0, 2, 0, 2]] ∧
    (0 : ℕ) * 2 * 4 ≠ 5 := by
  refine ⟨?_, by norm_num⟩
  simp only [Pipeline.prepare, ContentFit.fit]
  norm_num

/-- C3, amended: `Pipeline::prepare` performs no input validation; for every
input — including zero source dimensions or a buffer whose length differs
from width×height×4 — it unconditionally issues the full texture upload for
the declared size and the uniform write, leaving malformed input to GPU-level
validation outside this code. -/
theorem prepare_no_validation (p : Pipeline) (image_data : List ℕ)
    (image_size target_size : Size ℕ) (bounds : Rectangle ℚ)
    (content_fit : ContentFit) :
    (p.prepare image_data image_size target_size bounds content_fit).2 =
      [ QueueOp.writeTexture image_size image_data.length
      , QueueOp.writeBuffer
          (p.prepare image_data image_size target_size bounds
            content_fit).1.uniform_content ] := rfl

/-- C4: once a prepare call has stored the pipeline for a variant, every later
prepare with the same variant leaves the device untouched (no new pipeline
state object is compiled — the device counter is the creation witness) and
keeps the identity of the stored pipeline state object. -/
theorem get_or_create_idempotent (prim₁ prim₂ : Primitive) (device : Device)
    (storage : Storage) (bounds₁ bounds₂ : Rectangle ℚ) (vp₁ vp₂ : Size ℕ)
    (s₁ s₂ : Storage) (d₁ d₂ : Device) (ops₁ ops₂ : List QueueOp)
    (hfil : prim₂.filter = prim₁.filter)
    (h₁ : Primitive.prepare prim₁ device storage bounds₁ vp₁ = some (s₁, d₁, ops₁))
    (h₂ : Primitive.prepare prim₂ d₁ s₁ bounds₂ vp₂ = some (s₂, d₂, ops₂)) :
    d₂ = d₁ ∧
    (s₂.getVariant prim₁.filter).map Pipeline.pso =
      (s₁.getVariant prim₁.filter).map Pipeline.pso := by
  have hhas : s₁.hasVariant prim₂.filter = true := by
    rw [hfil]
    exact prepare_establishes_variant prim₁ device storage bounds₁ vp₁ s₁ d₁ ops₁ h₁
  have hmain := prepare_preserves_pso_when_has prim₂ d₁ s₁ bounds₂ vp₂ s₂ d₂ ops₂ hhas h₂
  rw [hfil] at hmain
  exact hmain

/-- C4, concrete data: a primitive with the `Cubic` variant. -/
def c4Prim : Primitive :=
  ⟨[0, 0, 0, 0], ⟨1, 1⟩, ContentFit.Fill, Filter.Cubic, ⟨0, 0, 2, 2⟩⟩

/-- C4, concrete data: the pipeline stored by the first prepare run. -/
def c4P₁ : Pipeline :=
  ((Pipeline.new Filter.Cubic ⟨0⟩ ⟨2, 2⟩).1.prepare c4Prim.image_data
    c4Prim.image_size ⟨roundToU32 2, roundToU32 2⟩ c4Prim.bounds
    c4Prim.content_fit).1

/-- C4, concrete data: the storage after the first prepare run. -/
def c4S₁ : Storage :=
  ((⟨none, none, none⟩ : Storage).storeVariant Filter.Cubic
      (Pipeline.new Filter.Cubic ⟨0⟩ ⟨2, 2⟩).1).storeVariant Filter.Cubic c4P₁

/-- C4, witness: two successive prepare runs with the `Cubic` variant, the
first from an empty storage; the second changes neither the device counter
nor the stored pipeline state object. -/
theorem get_or_create_idempotent_witness :
    (Pipeline.new Filter.Cubic ⟨0⟩ ⟨2, 2⟩).2 =
      (Pipeline.new Filter.Cubic ⟨0⟩ ⟨2, 2⟩).2 ∧
    ((c4S₁.storeVariant Filter.Cubic
        (c4P₁.prepare c4Prim.image_data c4Prim.image_size
          ⟨roundToU32 2, roundToU32 2⟩ c4Prim.bounds
          c4Prim.content_fit).1).getVariant Filter.Cubic).map Pipeline.pso =
      (c4S₁.getVariant Filter.Cubic).map Pipeline.pso :=
  get_or_create_idempotent c4Prim c4Prim ⟨0⟩ ⟨none, none, none⟩
    ⟨0, 0, 2, 2⟩ ⟨0, 0, 2, 2⟩ ⟨2, 2⟩ ⟨2, 2⟩ c4S₁ _ _ _ _ _ rfl
    (prepare_of_not_has c4Prim ⟨0⟩ ⟨none, none, none⟩ ⟨0, 0, 2, 2⟩ ⟨2, 2⟩ rfl)
    (prepare_of_get c4Prim _ c4S₁ ⟨0, 0, 2, 2⟩ ⟨2, 2⟩ c4P₁
      (storeVariant_getVariant _ _ _))

/-- C5: every prepare call keeps at most one pipeline per variant (at most 3
entries total in the storage), never touches the entries of the other
variants, and leaves its own variant's entry queryable. -/
theorem prepare_variant_isolation (prim : Primitive) (device : Device)
    (storage : Storage) (bounds : Rectangle ℚ) (vp : Size ℕ)
    (s' : Storage) (d' : Device) (ops : List QueueOp)
    (h : Primitive.prepare prim device storage bounds vp = some (s', d', ops)) :
    s'.countEntries ≤ 3 ∧
    (∀ g, g ≠ prim.filter → s'.getVariant g = storage.getVariant g) ∧
    (s'.getVariant prim.filter).isSome = true := by
  refine ⟨countEntries_le_three s', ?_, ?_⟩
  · intro g hg
    cases hhas : storage.hasVariant prim.filter
    · rw [prepare_of_not_has prim device storage bounds vp hhas] at h
      simp only [Option.some.injEq, Prod.mk.injEq] at h
      obtain ⟨hs, _, _⟩ := h
      rw [← hs, storeVariant_getVariant_ne _ _ _ _ hg,
        storeVariant_getVariant_ne _ _ _ _ hg]
    · have hsome : (storage.getVariant prim.filter).isSome = true := by
        rw [← hasVariant_eq_isSome, hhas]
      obtain ⟨p, hp⟩ := Option.isSome_iff_exists.mp hsome
      rw [prepare_of_get prim device storage bounds vp p hp] at h
      simp only [Option.some.injEq, Prod.mk.injEq] at h
      obtain ⟨hs, _, _⟩ := h
      rw [← hs, storeVariant_getVariant_ne _ _ _ _ hg]
  · have hv := prepare_establishes_variant prim device storage bounds vp s' d' ops h
    rw [hasVariant_eq_isSome] at hv
    exact hv

/-- C5, concrete data: a primitive with the `Lanczos` variant. -/
def c5Prim : Primitive :=
  ⟨[0, 0, 0, 0], ⟨1, 1⟩, ContentFit.Fill, Filter.Lanczos, ⟨0, 0, 2, 2⟩⟩

/-- C5, concrete data: a storage already holding a `Cubic` pipeline. -/
def c5Storage : Storage :=
  ⟨some (Pipeline.new Filter.Cubic ⟨0⟩ ⟨2, 2⟩).1, none, none⟩

/-- C5, concrete data: the storage after preparing the `Lanczos` primitive on
`c5Storage`. -/
def c5SOut : Storage :=
  (c5Storage.storeVariant Filter.Lanczos
      (Pipeline.new Filter.Lanczos ⟨1⟩ ⟨2, 2⟩).1).storeVariant Filter.Lanczos
    ((Pipeline.new Filter.Lanczos ⟨1⟩ ⟨2, 2⟩).1.prepare c5Prim.image_data
      c5Prim.image_size ⟨roundToU32 2, roundToU32 2⟩ c5Prim.bounds
      c5Prim.content_fit).1

/-- C5, witness: preparing a `Lanczos` primitive on a storage holding a
`Cubic` pipeline keeps at most 3 entries, leaves the `Cubic` entry unchanged,
and stores a queryable `Lanczos` entry. -/
theorem prepare_variant_isolation_witness :
    c5SOut.countEntries ≤ 3 ∧
    c5SOut.getVariant Filter.Cubic = c5Storage.getVariant Filter.Cubic ∧
    (c5SOut.getVariant Filter.Lanczos).isSome = true := by
  obtain ⟨h1, h2, h3⟩ := prepare_variant_isolation c5Prim ⟨1⟩ c5Storage
    ⟨0, 0, 2, 2⟩ ⟨2, 2⟩ c5SOut (Pipeline.new Filter.Lanczos ⟨1⟩ ⟨2, 2⟩).2
    ((Pipeline.new Filter.Lanczos ⟨1⟩ ⟨2, 2⟩).1.prepare c5Prim.image_data
      c5Prim.image_size ⟨roundToU32 2, roundToU32 2⟩ c5Prim.bounds
      c5Prim.content_fit).2
    (prepare_of_not_has c5Prim ⟨1⟩ c5Storage ⟨0, 0, 2, 2⟩ ⟨2, 2⟩ rfl)
  exact ⟨h1, h2 Filter.Cubic (by decide), h3⟩

/-- C6: under `Contain` the fitted size never exceeds the target on either
axis, preserves the source aspect (stated multiplicatively, which is exact
over the rational model), and at least one axis touches the target edge. -/
theorem contain_fit_within_bounds (sw sh tw th : ℚ)
    (hsw : 0 < sw) (hsh : 0 < sh) (htw : 0 < tw) (hth : 0 < th) :
    (ContentFit.Contain.fit ⟨sw, sh⟩ ⟨tw, th⟩).width ≤ tw ∧
    (ContentFit.Contain.fit ⟨sw, sh⟩ ⟨tw, th⟩).height ≤ th ∧
    (ContentFit.Contain.fit ⟨sw, sh⟩ ⟨tw, th⟩).width * sh =
      (ContentFit.Contain.fit ⟨sw, sh⟩ ⟨tw, th⟩).height * sw ∧
    ((ContentFit.Contain.fit ⟨sw, sh⟩ ⟨tw, th⟩).width = tw ∨
      (ContentFit.Contain.fit ⟨sw, sh⟩ ⟨tw, th⟩).height = th) := by
  have hw : (ContentFit.Contain.fit ⟨sw, sh⟩ ⟨tw, th⟩).width =
      sw * min (tw / sw) (th / sh) := rfl
  have hh : (ContentFit.Contain.fit ⟨sw, sh⟩ ⟨tw, th⟩).height =
      sh * min (tw / sw) (th / sh) := rfl
  rw [hw, hh]
  refine ⟨?_, ?_, by ring, ?_⟩
  · calc sw * min (tw / sw) (th / sh) ≤ sw * (tw / sw) :=
        mul_le_mul_of_nonneg_left (min_le_left _ _) hsw.le
      _ = tw := by rw [mul_comm]; exact div_mul_cancel₀ tw hsw.ne'
  · calc sh * min (tw / sw) (th / sh) ≤ sh * (th / sh) :=
        mul_le_mul_of_nonneg_left (min_le_right _ _) hsh.le
      _ = th := by rw [mul_comm]; exact div_mul_cancel₀ th hsh.ne'
  · rcases min_choice (tw / sw) (th / sh) with h | h
    · left
      rw [h, mul_comm]
      exact div_mul_cancel₀ tw hsw.ne'
    · right
      rw [h, mul_comm]
      exact div_mul_cancel₀ th hsh.ne'

/-- C6, witness at the spec's 800×600 source and 400×300 target. -/
theorem contain_fit_within_bounds_witness :
    (ContentFit.Contain.fit ⟨800, 600⟩ ⟨400, 300⟩).width ≤ 400 ∧
    (ContentFit.Contain.fit ⟨800, 600⟩ ⟨400, 300⟩).height ≤ 300 ∧
    (ContentFit.Contain.fit ⟨800, 600⟩ ⟨400, 300⟩).width * 600 =
      (ContentFit.Contain.fit ⟨800, 600⟩ ⟨400, 300⟩).height * 800 ∧
    ((ContentFit.Contain.fit ⟨800, 600⟩ ⟨400, 300⟩).width = 400 ∨
      (ContentFit.Contain.fit ⟨800, 600⟩ ⟨400, 300⟩).height = 300) :=
  contain_fit_within_bounds 800 600 400 300 (by norm_num) (by norm_num)
    (by norm_num) (by norm_num)

/-- Evaluation of the rounded cast on a whole number within `u32` range. -/
theorem roundToU32_natCast (n : ℕ) (h : (n : ℤ) ≤ 2 ^ 32 - 1) :
    roundToU32 (n : ℚ) = n := by
  unfold roundToU32 rustRound u32Saturate
  rw [if_neg (not_lt.mpr (by positivity))]
  have hfloor : ⌊(n : ℚ) + 1 / 2⌋ = (n : ℤ) := by
    rw [Int.floor_eq_iff]
    constructor
    · push_cast; linarith
    · push_cast; linarith
  rw [hfloor, min_eq_left h, Int.toNat_natCast]

/-- C7: every drawing `render` call records a pass that loads (does not
clear) the target and sets a pipeline whose blend state — `ALPHA_BLENDING`
for every pipeline built by `Pipeline::new` — composites on top; under the
pass semantics, every target pixel outside the scissor rectangle is left
unchanged. -/
theorem render_pass_loads_and_blends (p : Pipeline) (clip : Rectangle ℕ)
    (bounds : Rectangle ℚ) (cf : ContentFit) (ts : Size ℕ) (bg : Unit)
    (htex : p.texture = some ts) (hbg : p.bind_group = some bg) :
    (∀ f d vp, ((Pipeline.new f d vp).1).blend = BlendState.alphaBlending) ∧
    ∃ cmds, p.render clip bounds cf = Except.ok cmds ∧
      RenderCmd.beginPass LoadOp.load ∈ cmds ∧
      RenderCmd.setPipeline p.pso p.blend ∈ cmds ∧
      ∀ frag fb px py,
        inRectNat (toRenderBounds
          (fittedRect ⟨(ts.width : ℚ), (ts.height : ℚ)⟩ bounds cf)) px py = false →
        (execCmds frag cmds ⟨fb, none, none⟩).fb px py = fb px py := by
  refine ⟨fun f d vp => rfl, ?_⟩
  rw [render_of_prepared p clip bounds cf ts bg htex hbg]
  refine ⟨_, rfl, by simp, by simp, ?_⟩
  intro frag fb px py hout
  simp [execCmds, execCmd, hout]

/-- C7, concrete data: a prepared `Lanczos` pipeline over a 2×2 source in an
8×8 target. -/
def c7P : Pipeline :=
  ((Pipeline.new Filter.Lanczos ⟨0⟩ ⟨8, 8⟩).1.prepare (List.replicate 16 0)
    ⟨2, 2⟩ ⟨8, 8⟩ ⟨0, 0, 8, 8⟩ ContentFit.Fill).1

/-- C7, witness: at a concrete prepared pipeline the pass loads, sets the
straight-alpha pipeline, and a pixel outside the scissor region keeps its
framebuffer value. -/
theorem render_pass_loads_and_blends_witness :
    (Pipeline.new Filter.Gaussian ⟨0⟩ ⟨8, 8⟩).1.blend = BlendState.alphaBlending ∧
    ∃ cmds, c7P.render ⟨0, 0, 8, 8⟩ ⟨0, 0, 8, 8⟩ ContentFit.Fill = Except.ok cmds ∧
      RenderCmd.beginPass LoadOp.load ∈ cmds ∧
      RenderCmd.setPipeline c7P.pso c7P.blend ∈ cmds ∧
      (execCmds (fun _ _ => ⟨1, 0, 0, 1⟩) cmds
        ⟨fun _ _ => ⟨0, 0, 0, 0⟩, none, none⟩).fb 99 99 =
        (fun _ _ => (⟨0, 0, 0, 0⟩ : Color)) 99 99 := by
  obtain ⟨hblend, cmds, hok, hload, hpipe, hout⟩ :=
    render_pass_loads_and_blends c7P ⟨0, 0, 8, 8⟩ ⟨0, 0, 8, 8⟩ ContentFit.Fill
      ⟨2, 2⟩ () rfl rfl
  refine ⟨hblend Filter.Gaussian ⟨0⟩ ⟨8, 8⟩, cmds, hok, hload, hpipe,
    hout (fun _ _ => ⟨1, 0, 0, 1⟩) (fun _ _ => ⟨0, 0, 0, 0⟩) 99 99 ?_⟩
  have hfit : fittedRect ⟨((2 : ℕ) : ℚ), ((2 : ℕ) : ℚ)⟩ ⟨0, 0, 8, 8⟩
      ContentFit.Fill = ⟨0, 0, 8, 8⟩ := by
    simp only [fittedRect, ContentFit.fit]
    norm_num
  have h0 : roundToU32 (0 : ℚ) = 0 := by
    have h := roundToU32_natCast 0 (by norm_num)
    simpa using h
  have h8 : roundToU32 (8 : ℚ) = 8 := by
    have h := roundToU32_natCast 8 (by norm_num)
    simpa using h
  show inRectNat (toRenderBounds (fittedRect ⟨((2 : ℕ) : ℚ), ((2 : ℕ) : ℚ)⟩
    ⟨0, 0, 8, 8⟩ ContentFit.Fill)) 99 99 = false
  rw [hfit]
  simp [toRenderBounds, h0, h8, inRectNat]

/-- C8: a `render` call on a pipeline that has never been prepared
(`bind_group` is `None`) is a silent no-op: no render pass, no commands, no
panic. -/
theorem render_noop_before_prepare (p : Pipeline) (clip : Rectangle ℕ)
    (bounds : Rectangle ℚ) (cf : ContentFit) (h : p.bind_group = none) :
    p.render clip bounds cf = Except.ok [] := by
  unfold Pipeline.render
  rw [h]

/-- C8, witness: a freshly constructed pipeline renders to the empty command
list. -/
theorem render_noop_before_prepare_witness :
    (Pipeline.new Filter.Gaussian ⟨0⟩ ⟨10, 10⟩).1.render ⟨0, 0, 10, 10⟩
      ⟨0, 0, 10, 10⟩ ContentFit.Cover = Except.ok [] :=
  render_noop_before_prepare (Pipeline.new Filter.Gaussian ⟨0⟩ ⟨10, 10⟩).1
    ⟨0, 0, 10, 10⟩ ⟨0, 0, 10, 10⟩ ContentFit.Cover rfl

/-- C9: the storage lookup that `Primitive::prepare` unwraps after the
has-check/store block always succeeds — the model returns `none` exactly
where the Rust `unwrap` would panic, and it never does. -/
theorem prepare_lookup_total (prim : Primitive) (device : Device)
    (storage : Storage) (bounds : Rectangle ℚ) (vp : Size ℕ) :
    (Primitive.prepare prim device storage bounds vp).isSome = true := by
  cases hhas : storage.hasVariant prim.filter
  · rw [prepare_of_not_has prim device storage bounds vp hhas]
    rfl
  · have hsome : (storage.getVariant prim.filter).isSome = true := by
      rw [← hasVariant_eq_isSome, hhas]
    obtain ⟨p, hp⟩ := Option.isSome_iff_exists.mp hsome
    rw [prepare_of_get prim device storage bounds vp p hp]
    rfl

/-- C10: the scissor and viewport rectangles passed to the GPU come from the
rounded fitted bounds through the saturating `as u32` cast, so any negative
origin or extent (e.g. `Cover` overflow) is clamped to `0` rather than
wrapping or erroring. -/
theorem render_bounds_saturate (p : Pipeline) (clip : Rectangle ℕ)
    (bounds : Rectangle ℚ) (cf : ContentFit) (ts : Size ℕ) (bg : Unit)
    (htex : p.texture = some ts) (hbg : p.bind_group = some bg) :
    ∃ cmds, p.render clip bounds cf = Except.ok cmds ∧
      RenderCmd.setScissor (toRenderBounds
        (fittedRect ⟨(ts.width : ℚ), (ts.height : ℚ)⟩ bounds cf)) ∈ cmds ∧
      RenderCmd.setViewport (ratRect (toRenderBounds
        (fittedRect ⟨(ts.width : ℚ), (ts.height : ℚ)⟩ bounds cf))) ∈ cmds ∧
      ((fittedRect ⟨(ts.width : ℚ), (ts.height : ℚ)⟩ bounds cf).x < 0 →
        (toRenderBounds
          (fittedRect ⟨(ts.width : ℚ), (ts.height : ℚ)⟩ bounds cf)).x = 0) ∧
      ((fittedRect ⟨(ts.width : ℚ), (ts.height : ℚ)⟩ bounds cf).y < 0 →
        (toRenderBounds
          (fittedRect ⟨(ts.width : ℚ), (ts.height : ℚ)⟩ bounds cf)).y = 0) ∧
      ((fittedRect ⟨(ts.width : ℚ), (ts.height : ℚ)⟩ bounds cf).width < 0 →
        (toRenderBounds
          (fittedRect ⟨(ts.width : ℚ), (ts.height : ℚ)⟩ bounds cf)).width = 0) ∧
      ((fittedRect ⟨(ts.width : ℚ), (ts.height : ℚ)⟩ bounds cf).height < 0 →
        (toRenderBounds
          (fittedRect ⟨(ts.width : ℚ), (ts.height : ℚ)⟩ bounds cf)).height = 0) := by
  rw [render_of_prepared p clip bounds cf ts bg htex hbg]
  refine ⟨_, rfl, by simp, by simp, ?_, ?_, ?_, ?_⟩ <;>
    exact fun h => roundToU32_of_neg _ h

/-- C10, concrete data: a prepared pipeline over a 2×1 source that `Cover`
overflows out of a 1×1 target on the x axis. -/
def c10P : Pipeline :=
  ((Pipeline.new Filter.Cubic ⟨0⟩ ⟨1, 1⟩).1.prepare (List.replicate 8 0)
    ⟨2, 1⟩ ⟨1, 1⟩ ⟨0, 0, 1, 1⟩ ContentFit.Cover).1

/-- C10, witness: the `Cover` overflow makes the centred fitted x negative,
and the scissor rectangle recorded by `render` has x clamped to `0`. -/
theorem render_bounds_saturate_witness :
    (fittedRect ⟨((2 : ℕ) : ℚ), ((1 : ℕ) : ℚ)⟩ ⟨0, 0, 1, 1⟩ ContentFit.Cover).x < 0 ∧
    (toRenderBounds
      (fittedRect ⟨((2 : ℕ) : ℚ), ((1 : ℕ) : ℚ)⟩ ⟨0, 0, 1, 1⟩ ContentFit.Cover)).x = 0 ∧
    ∃ cmds, c10P.render ⟨0, 0, 1, 1⟩ ⟨0, 0, 1, 1⟩ ContentFit.Cover = Except.ok cmds ∧
      RenderCmd.setScissor (toRenderBounds
        (fittedRect ⟨((2 : ℕ) : ℚ), ((1 : ℕ) : ℚ)⟩ ⟨0, 0, 1, 1⟩ ContentFit.Cover)) ∈ cmds := by
  have hneg : (fittedRect ⟨((2 : ℕ) : ℚ), ((1 : ℕ) : ℚ)⟩ ⟨0, 0, 1, 1⟩
      ContentFit.Cover).x < 0 := by
    norm_num [fittedRect, ContentFit.fit, max_def]
  obtain ⟨cmds, hok, hsc, hvp, hx, _, _, _⟩ :=
    render_bounds_saturate c10P ⟨0, 0, 1, 1⟩ ⟨0, 0, 1, 1⟩ ContentFit.Cover
      ⟨2, 1⟩ () rfl rfl
  exact ⟨hneg, hx hneg, cmds, hok, hsc⟩

end SleepyHollow
